import Mathlib

/-!
Shallow embedding of `src/components/dataViews/ListUserMultisigs.tsx`
(cosmos-multisig-ui), the wallet-authenticated multisig discovery flow.

The component's external calls (Stargate node client, Keplr signing agent,
backend HTTP API) are modelled by environments that fix the outcome of each
call; the React `useState` cells are a `ComponentState` record, and each
handler is a function from an environment and a state to a new state plus
the list of external calls it issued and the error toasts it raised.
-/

/-- One multisig row as delivered by the backend list endpoint
(`MultisigFromQuery`): an address and a JSON-encoded threshold pubkey. -/
structure MultisigFromQuery where
  address : String
  pubkeyJSON : String
  deriving DecidableEq

/-- The response of `/api/chain/:chainId/multisig/list` (`FetchedMultisigs`):
the multisigs the user created and the ones it belongs to. -/
structure FetchedMultisigs where
  created : List MultisigFromQuery
  belonged : List MultisigFromQuery
  deriving DecidableEq

/-- The wallet identity kept in the `walletInfo` state cell
(`Omit<WalletInfo, "type">`): bech32 address and base64 public key. -/
structure WalletInfo where
  address : String
  pubKey : String
  deriving DecidableEq

/-- The fields of the chain context (`useChains().chain`) that the
component reads. -/
structure ChainInfo where
  chainId : String
  chainDisplayName : String
  nodeAddress : String
  deriving DecidableEq

/-- The four `useState` cells of `ListUserMultisigs`. -/
structure ComponentState where
  loading : Bool
  walletInfo : Option WalletInfo
  showBelonged : Bool
  multisigs : Option FetchedMultisigs
  deriving DecidableEq

/-! ### Challenge serialization

`getSignature` signs `toBase64(Buffer.from(JSON.stringify({title, description,
nonce})))`.  We embed `JSON.stringify` on that object literal (member order
title, description, nonce; standard string escaping), UTF-8 encoding and
base64. -/

/-- Lower-case hexadecimal digit, used by JSON string escaping. -/
def hexDigit (n : Nat) : Char :=
  "0123456789abcdef".toList.getD n '0'

/-- How `JSON.stringify` escapes a single character inside a string:
quote and backslash are escaped, the control characters below 0x20 use the
two-letter escapes or a `\u00XX` escape, everything else is kept as is. -/
def escapeChar (c : Char) : List Char :=
  if c = '"' then ['\\', '"']
  else if c = '\\' then ['\\', '\\']
  else if c.toNat = 8 then ['\\', 'b']
  else if c = '\t' then ['\\', 't']
  else if c = '\n' then ['\\', 'n']
  else if c.toNat = 12 then ['\\', 'f']
  else if c.toNat = 13 then ['\\', 'r']
  else if c.toNat < 32 then
    ['\\', 'u', '0', '0', hexDigit (c.toNat / 16), hexDigit (c.toNat % 16)]
  else [c]

/-- A JSON string literal for `s`, as produced by `JSON.stringify`. -/
def jsonQuote (s : String) : String :=
  "\"" ++ String.mk (s.toList.map escapeChar).flatten ++ "\""

/-- `JSON.stringify({ title, description, nonce })` for the challenge object
built in `getSignature` (source lines 60-64): the title interpolates the
chain display name, the description is fixed, the nonce is spliced in. -/
def challengeJSON (displayName nonce : String) : String :=
  "\x7b" ++ jsonQuote "title" ++ ":"
    ++ jsonQuote ("Keplr Login to " ++ displayName) ++ ","
    ++ jsonQuote "description" ++ ":"
    ++ jsonQuote "Sign this no fee transaction to login with your Keplr wallet" ++ ","
    ++ jsonQuote "nonce" ++ ":" ++ jsonQuote nonce ++ "\x7d"

/-- UTF-8 encoding of one character, as `Buffer.from(string)` produces it. -/
def utf8Bytes (c : Char) : List Nat :=
  let n := c.toNat
  if n < 128 then [n]
  else if n < 2048 then [192 + n / 64, 128 + n % 64]
  else if n < 65536 then [224 + n / 4096, 128 + n / 64 % 64, 128 + n % 64]
  else [240 + n / 262144, 128 + n / 4096 % 64, 128 + n / 64 % 64, 128 + n % 64]

/-- UTF-8 bytes of a string (each byte as a `Nat` below 256). -/
def strBytes (s : String) : List Nat :=
  (s.toList.map utf8Bytes).flatten

/-- The base64 alphabet used by `@cosmjs/encoding`'s `toBase64`. -/
def base64Chars : List Char :=
  "ABCDEFGHIJKLMNOPQRSTUVWXYZabcdefghijklmnopqrstuvwxyz0123456789+/".toList

/-- One base64 alphabet character. -/
def b64Char (n : Nat) : Char :=
  base64Chars.getD n '='

/-- Standard base64 with `=` padding (`toBase64` from `@cosmjs/encoding`). -/
def toBase64 : List Nat → String
  | [] => ""
  | [a] =>
    String.mk [b64Char (a / 4), b64Char (a % 4 * 16)] ++ "=="
  | [a, b] =>
    String.mk [b64Char (a / 4), b64Char (a % 4 * 16 + b / 16), b64Char (b % 16 * 4)] ++ "="
  | a :: b :: c :: rest =>
    String.mk [b64Char (a / 4), b64Char (a % 4 * 16 + b / 16),
      b64Char (b % 16 * 4 + c / 64), b64Char (c % 64)] ++ toBase64 rest

/-- The challenge payload handed to the signing agent as the `data` field of
the `sign/MsgSignData` message: base64 of the UTF-8 bytes of the stringified
challenge object (source lines 57-67). -/
def challengePayload (displayName nonce : String) : String :=
  toBase64 (strBytes (challengeJSON displayName nonce))

/-! ### JSON validity

The render map runs `JSON.parse(multisig.pubkeyJSON)` for each displayed
entry (source line 200); a parse failure throws and aborts the whole render.
We embed a standard JSON parser (fuel-based recursive descent) to make
"is valid JSON" a decidable, executable notion. -/

/-- The JSON value tree produced by parsing. Number lexemes are kept as
their source text, which is all the embedding needs. -/
inductive JsonValue where
  | null
  | bool (b : Bool)
  | num (lexeme : String)
  | str (s : String)
  | arr (items : List JsonValue)
  | obj (fields : List (String × JsonValue))

/-- JSON whitespace (space, tab, line feed, carriage return). -/
def isJsonWs (c : Char) : Bool :=
  c = ' ' || c = '\t' || c = '\n' || c.toNat = 13

/-- Drop leading JSON whitespace. -/
def skipWs : List Char → List Char
  | [] => []
  | c :: rest => if isJsonWs c then skipWs rest else c :: rest

/-- Value of one hexadecimal digit, if any. -/
def hexVal (c : Char) : Option Nat :=
  if 48 ≤ c.toNat ∧ c.toNat ≤ 57 then some (c.toNat - 48)
  else if 97 ≤ c.toNat ∧ c.toNat ≤ 102 then some (c.toNat - 87)
  else if 65 ≤ c.toNat ∧ c.toNat ≤ 70 then some (c.toNat - 55)
  else none

/-- Decode one JSON string escape (the characters after a backslash). -/
def readEscape : List Char → Option (Char × List Char)
  | [] => none
  | e :: rest =>
    if e = '"' then some ('"', rest)
    else if e = '\\' then some ('\\', rest)
    else if e = '/' then some ('/', rest)
    else if e = 'b' then some (Char.ofNat 8, rest)
    else if e = 'f' then some (Char.ofNat 12, rest)
    else if e = 'n' then some ('\n', rest)
    else if e = 'r' then some (Char.ofNat 13, rest)
    else if e = 't' then some ('\t', rest)
    else if e = 'u' then
      match rest with
      | h1 :: h2 :: h3 :: h4 :: rest2 =>
        match hexVal h1, hexVal h2, hexVal h3, hexVal h4 with
        | some a, some b, some c, some d =>
          some (Char.ofNat (a * 4096 + b * 256 + c * 16 + d), rest2)
        | _, _, _, _ => none
      | _ => none
    else none

/-- Parse the body of a JSON string after the opening quote, up to and
including the closing quote. Raw control characters are rejected, as
`JSON.parse` rejects them. -/
def parseStrBody : Nat → List Char → Option (List Char × List Char)
  | 0, _ => none
  | _, [] => none
  | fuel + 1, c :: rest =>
    if c = '"' then some ([], rest)
    else if c = '\\' then
      match readEscape rest with
      | none => none
      | some (ch, rem) =>
        match parseStrBody fuel rem with
        | none => none
        | some (cs, rem2) => some (ch :: cs, rem2)
    else if c.toNat < 32 then none
    else
      match parseStrBody fuel rest with
      | none => none
      | some (cs, rem2) => some (c :: cs, rem2)

/-- Is `c` an ASCII decimal digit? -/
def isDigitCh (c : Char) : Bool :=
  48 ≤ c.toNat && c.toNat ≤ 57

/-- Split off a (possibly empty) run of leading digits. -/
def takeDigits : List Char → List Char × List Char
  | [] => ([], [])
  | c :: rest =>
    if isDigitCh c then
      let p := takeDigits rest
      (c :: p.1, p.2)
    else ([], c :: rest)

/-- The integer part of a JSON number: `0`, or a nonzero digit followed by
digits (no leading zeros). -/
def parseIntPart : List Char → Option (List Char × List Char)
  | [] => none
  | c :: rest =>
    if c = '0' then some ([c], rest)
    else if isDigitCh c then
      let p := takeDigits rest
      some (c :: p.1, p.2)
    else none

/-- The optional fraction part of a JSON number: a dot and one or more
digits, or nothing. -/
def parseFracPart : List Char → Option (List Char × List Char)
  | [] => some ([], [])
  | c :: rest =>
    if c = '.' then
      match rest with
      | [] => none
      | d :: rest2 =>
        if isDigitCh d then
          let p := takeDigits rest2
          some (c :: d :: p.1, p.2)
        else none
    else some ([], c :: rest)

/-- The optional exponent part of a JSON number: `e` or `E`, an optional
sign, and one or more digits, or nothing. -/
def parseExpPart : List Char → Option (List Char × List Char)
  | [] => some ([], [])
  | c :: rest =>
    if c = 'e' || c = 'E' then
      match rest with
      | [] => none
      | s :: rest2 =>
        if s = '+' || s = '-' then
          match rest2 with
          | [] => none
          | d :: rest3 =>
            if isDigitCh d then
              let p := takeDigits rest3
              some (c :: s :: d :: p.1, p.2)
            else none
        else if isDigitCh s then
          let p := takeDigits rest2
          some (c :: s :: p.1, p.2)
        else none
    else some ([], c :: rest)

/-- A complete JSON number lexeme: optional minus, integer part, optional
fraction, optional exponent. -/
def parseNumber (cs : List Char) : Option (List Char × List Char) :=
  let core : List Char → Option (List Char × List Char) := fun body =>
    match parseIntPart body with
    | none => none
    | some (ip, rem) =>
      match parseFracPart rem with
      | none => none
      | some (fp, rem2) =>
        match parseExpPart rem2 with
        | none => none
        | some (ep, rem3) => some (ip ++ fp ++ ep, rem3)
  match cs with
  | [] => none
  | c :: rest =>
    if c = '-' then
      match core rest with
      | none => none
      | some (lex, rem) => some (c :: lex, rem)
    else core (c :: rest)

mutual

/-- Parse one JSON value (leading whitespace allowed), fuel-bounded. -/
def parseValue : Nat → List Char → Option (JsonValue × List Char)
  | 0, _ => none
  | fuel + 1, cs =>
    match skipWs cs with
    | [] => none
    | c :: rest =>
      if c = '"' then
        match parseStrBody (rest.length + 1) rest with
        | none => none
        | some (body, rem) => some (.str (String.mk body), rem)
      else if c = Char.ofNat 123 then
        parseObjBody fuel (skipWs rest)
      else if c = '[' then
        parseArrBody fuel (skipWs rest)
      else if c = 't' then
        match rest with
        | 'r' :: 'u' :: 'e' :: rem => some (.bool true, rem)
        | _ => none
      else if c = 'f' then
        match rest with
        | 'a' :: 'l' :: 's' :: 'e' :: rem => some (.bool false, rem)
        | _ => none
      else if c = 'n' then
        match rest with
        | 'u' :: 'l' :: 'l' :: rem => some (.null, rem)
        | _ => none
      else
        match parseNumber (c :: rest) with
        | none => none
        | some (lex, rem) => some (.num (String.mk lex), rem)

/-- Parse an array body after `[` (leading whitespace already dropped). -/
def parseArrBody : Nat → List Char → Option (JsonValue × List Char)
  | 0, _ => none
  | fuel + 1, cs =>
    match cs with
    | ']' :: rem => some (.arr [], rem)
    | _ =>
      match parseValue fuel cs with
      | none => none
      | some (v, rem) =>
        match parseArrRest fuel rem with
        | none => none
        | some (vs, rem2) => some (.arr (v :: vs), rem2)

/-- Parse the rest of an array: comma-separated values up to `]`. -/
def parseArrRest : Nat → List Char → Option (List JsonValue × List Char)
  | 0, _ => none
  | fuel + 1, cs =>
    match skipWs cs with
    | ',' :: rest =>
      match parseValue fuel rest with
      | none => none
      | some (v, rem) =>
        match parseArrRest fuel rem with
        | none => none
        | some (vs, rem2) => some (v :: vs, rem2)
    | ']' :: rest => some ([], rest)
    | _ => none

/-- Parse an object body after the opening brace (leading whitespace
already dropped). -/
def parseObjBody : Nat → List Char → Option (JsonValue × List Char)
  | 0, _ => none
  | fuel + 1, cs =>
    match cs with
    | [] => none
    | c :: rest =>
      if c = Char.ofNat 125 then some (.obj [], rest)
      else
        match parseMember fuel (c :: rest) with
        | none => none
        | some (kv, rem) =>
          match parseObjRest fuel rem with
          | none => none
          | some (kvs, rem2) => some (.obj (kv :: kvs), rem2)

/-- Parse one `"key": value` object member. -/
def parseMember : Nat → List Char → Option ((String × JsonValue) × List Char)
  | 0, _ => none
  | fuel + 1, cs =>
    match skipWs cs with
    | '"' :: rest =>
      match parseStrBody (rest.length + 1) rest with
      | none => none
      | some (key, rem) =>
        match skipWs rem with
        | ':' :: rem2 =>
          match parseValue fuel rem2 with
          | none => none
          | some (v, rem3) => some ((String.mk key, v), rem3)
        | _ => none
    | _ => none

/-- Parse the rest of an object: comma-separated members up to the
closing brace. -/
def parseObjRest : Nat → List Char → Option (List (String × JsonValue) × List Char)
  | 0, _ => none
  | fuel + 1, cs =>
    match skipWs cs with
    | [] => none
    | c :: rest =>
      if c = ',' then
        match parseMember fuel rest with
        | none => none
        | some (kv, rem) =>
          match parseObjRest fuel rem with
          | none => none
          | some (kvs, rem2) => some (kv :: kvs, rem2)
      else if c = Char.ofNat 125 then some ([], rest)
      else none

end

/-- The embedding of `JSON.parse`: `some` value when the whole input is one
valid JSON text, `none` when `JSON.parse` would throw. -/
def jsonParse (s : String) : Option JsonValue :=
  match parseValue (2 * s.length + 4) s.toList with
  | none => none
  | some (v, rem) => if skipWs rem = [] then some v else none

/-! ### View helpers

The render expressions of `ListUserMultisigs` that the claims are about
(source lines 178-228). -/

/-- Whether the created/belonged toggle control is rendered: the result
block is guarded by `multisigs?.created.length || multisigs?.belonged.length`
(JS truthiness: a nonzero length) and the switch itself by
`multisigs.created.length !== multisigs.belonged.length`
(source lines 184-186). -/
def toggleRendered (multisigs : Option FetchedMultisigs) : Bool :=
  match multisigs with
  | none => false
  | some m =>
    if m.created.length != 0 || m.belonged.length != 0 then
      m.created.length != m.belonged.length
    else false

/-- The list of entries the result block maps over:
`showBelonged ? multisigs.belonged : multisigs.created` inside the same
truthiness guard (source line 199); nothing is mapped when the guard or
`multisigs` itself is absent. -/
def displayedSet (showBelonged : Bool) (multisigs : Option FetchedMultisigs) :
    List MultisigFromQuery :=
  match multisigs with
  | none => []
  | some m =>
    if m.created.length != 0 || m.belonged.length != 0 then
      if showBelonged then m.belonged else m.created
    else []

/-- Rendering one row runs `JSON.parse(multisig.pubkeyJSON)` (source line
200); a throw aborts the render, so the row renders only when the field is
valid JSON. The row keeps the address and the parsed pubkey value. -/
def renderRow (m : MultisigFromQuery) : Option (String × JsonValue) :=
  match jsonParse m.pubkeyJSON with
  | none => none
  | some pubkey => some (m.address, pubkey)

/-- Rendering the displayed list maps `renderRow` over it; the first
throwing row aborts the whole render (`none`). -/
def renderRows : List MultisigFromQuery → Option (List (String × JsonValue))
  | [] => some []
  | m :: rest =>
    match renderRow m, renderRows rest with
    | some r, some rs => some (r :: rs)
    | _, _ => none

/-! ### The asynchronous flow

Each external call's outcome is fixed by an environment record; a thrown
JS error is an `Except.error ()`. The handlers return the new component
state, the external calls issued (in order) and the error toasts raised. -/

/-- The errors `getSignature` can end in, named after the spec taxonomy:
the explicit `Account not found on chain for ...` throw (source lines
39-41), a `requestJson` / `StargateClient.connect` failure, and a rejected
or failed `signAmino`. -/
inductive FlowError where
  | accountNotFound (address : String)
  | networkError
  | signingRejected
  deriving DecidableEq

/-- External calls the component can issue, with the arguments the claims
care about. -/
inductive ExtCall where
  | connectClient (nodeAddress : String)
  | getAccount (address : String)
  | nonceRequest (url : String)
  | signAmino (chainId : String) (signer : String) (data : String)
  | listRequest (url : String) (signature : String)
  | enable (chainId : String)
  | setDefaultOptions
  | getKey (chainId : String)
  deriving DecidableEq

/-- The two kinds of error toast the component raises:
`Failed to fetch multisigs` from `fetchMultisigs` (source lines 94-97) and
the classified connect error from `connectWallet` (source lines 122-127). -/
inductive Toast where
  | fetchFailed
  | connectError
  deriving DecidableEq

/-- Outcomes of the external calls made inside `getSignature`:
`StargateClient.connect`, `client.getAccount` (with the canonical on-chain
address when found), the nonce request, and `keplr.signAmino`. -/
structure SignEnv where
  connectResult : Except Unit Unit
  accountOnChain : Option String
  nonceResult : Except Unit String
  signResult : Except Unit String

/-- Outcomes of the external calls made inside `fetchMultisigs`: the
`getSignature` sub-flow and the list request. -/
structure FetchEnv where
  signEnv : SignEnv
  listResult : Except Unit FetchedMultisigs

/-- Outcomes of the external calls made inside `connectWallet`:
`keplr.enable`, `keplr.getKey` (bech32 address and raw pubkey bytes), and
the `fetchMultisigs` sub-flow. -/
structure ConnectEnv where
  enableResult : Except Unit Unit
  getKeyResult : Except Unit (String × List Nat)
  fetchEnv : FetchEnv

/-- The result of running a handler: the new state, the external calls
issued in order, and the error toasts raised. -/
structure StepResult where
  state : ComponentState
  calls : List ExtCall
  toasts : List Toast
  deriving DecidableEq

/-- The nonce endpoint URL built in `getSignature` (source line 44). -/
def nonceUrl (chainId address : String) : String :=
  "/api/chain/" ++ chainId ++ "/nonce/" ++ address

/-- The list endpoint URL built in `fetchMultisigs` (source line 85). -/
def listUrl (chainId : String) : String :=
  "/api/chain/" ++ chainId ++ "/multisig/list"

/-- `getSignature(address)` (source lines 34-77): connect a Stargate
client, resolve the account on chain (throwing when absent), request a
nonce, then ask the agent to sign the challenge payload. Returns the
signature or the error, plus the calls issued. -/
def getSignature (env : SignEnv) (chain : ChainInfo) (address : String) :
    Except FlowError String × List ExtCall :=
  match env.connectResult with
  | .error _ => (.error .networkError, [.connectClient chain.nodeAddress])
  | .ok _ =>
    match env.accountOnChain with
    | none =>
      (.error (.accountNotFound address),
        [.connectClient chain.nodeAddress, .getAccount address])
    | some acct =>
      match env.nonceResult with
      | .error _ =>
        (.error .networkError,
          [.connectClient chain.nodeAddress, .getAccount address,
            .nonceRequest (nonceUrl chain.chainId acct)])
      | .ok nonce =>
        let payload := challengePayload chain.chainDisplayName nonce
        match env.signResult with
        | .error _ =>
          (.error .signingRejected,
            [.connectClient chain.nodeAddress, .getAccount address,
              .nonceRequest (nonceUrl chain.chainId acct),
              .signAmino chain.chainId acct payload])
        | .ok signature =>
          (.ok signature,
            [.connectClient chain.nodeAddress, .getAccount address,
              .nonceRequest (nonceUrl chain.chainId acct),
              .signAmino chain.chainId acct payload])

/-- `fetchMultisigs(address)` (source lines 79-101): get the signature,
post it to the list endpoint and store the result with `setMultisigs`;
any error from either step is caught, logged and surfaced as the
`Failed to fetch multisigs` toast without touching the state. -/
def fetchMultisigs (env : FetchEnv) (chain : ChainInfo) (address : String)
    (st : ComponentState) : StepResult :=
  match (getSignature env.signEnv chain address).1 with
  | .error _ => ⟨st, (getSignature env.signEnv chain address).2, [.fetchFailed]⟩
  | .ok signature =>
    match env.listResult with
    | .error _ =>
      ⟨st, (getSignature env.signEnv chain address).2
        ++ [.listRequest (listUrl chain.chainId) signature], [.fetchFailed]⟩
    | .ok newMultisigs =>
      ⟨{ st with multisigs := some newMultisigs },
        (getSignature env.signEnv chain address).2
          ++ [.listRequest (listUrl chain.chainId) signature], []⟩

/-- `connectWallet` (source lines 103-131): set `loading`, enable the
agent, set its default signing options, read the key, store the wallet
identity with `setWalletInfo`, then run `fetchMultisigs`; errors escaping
that sequence (only `enable` and `getKey` can throw here, because
`fetchMultisigs` catches its own) are caught and toasted, and the
`finally` block always clears `loading`. -/
def connectWallet (env : ConnectEnv) (chain : ChainInfo) (st : ComponentState) :
    StepResult :=
  let st1 := { st with loading := true }
  match env.enableResult with
  | .error _ =>
    ⟨{ st1 with loading := false }, [.enable chain.chainId], [.connectError]⟩
  | .ok _ =>
    match env.getKeyResult with
    | .error _ =>
      ⟨{ st1 with loading := false },
        [.enable chain.chainId, .setDefaultOptions, .getKey chain.chainId],
        [.connectError]⟩
    | .ok (address, pubKeyArray) =>
      let st2 := { st1 with walletInfo := some ⟨address, toBase64 pubKeyArray⟩ }
      let r := fetchMultisigs env.fetchEnv chain address st2
      ⟨{ r.state with loading := false },
        [.enable chain.chainId, .setDefaultOptions, .getKey chain.chainId] ++ r.calls,
        r.toasts⟩

/-- The switch's `onCheckedChange` handler (source lines 191-193): it only
calls `setShowBelonged(checked)`; no external call, no other state write. -/
def onToggleChange (checked : Bool) (st : ComponentState) : StepResult :=
  ⟨{ st with showBelonged := checked }, [], []⟩

/-! ### The keystore-change subscription

`useLayoutEffect` (source lines 133-144) registers `connectWallet` for the
`keplr_keystorechange` window event when `walletInfo?.address` is truthy
and returns a cleanup that removes it; with a falsy address it does
nothing and installs no cleanup. React runs an effect after a render,
runs the previous cleanup (when one was installed) before re-running the
effect, and runs the last cleanup at unmount. We model a component
lifetime as the list of `walletInfo?.address` values seen by successive
effect runs, and the emitted add/remove listener operations. -/

/-- Listener registry operations on the window event target. -/
inductive ListenerEvent where
  | add
  | remove
  deriving DecidableEq

/-- JS truthiness of `walletInfo?.address`: present and non-empty. -/
def addrTruthy : Option String → Bool
  | none => false
  | some s => !s.isEmpty

/-- One run of the effect body: the operations it performs now and the
operations its cleanup will perform later. With a falsy address the body
returns early (source lines 134-136): nothing now, no cleanup. -/
def effectRun (addr : Option String) : List ListenerEvent × List ListenerEvent :=
  if addrTruthy addr then ([.add], [.remove]) else ([], [])

/-- Run the effect for each render in order, carrying the pending cleanup
of the latest run: before each new run the pending cleanup is emitted,
and the cleanup still pending at the end is returned (it is emitted at
unmount). -/
def runEffectsAux (pending : List ListenerEvent) :
    List (Option String) → List ListenerEvent × List ListenerEvent
  | [] => ([], pending)
  | a :: rest =>
    let now := (effectRun a).1
    let cl := (effectRun a).2
    let r := runEffectsAux cl rest
    (pending ++ now ++ r.1, r.2)

/-- The listener operations emitted while the component is mounted. -/
def mountedTrace (renders : List (Option String)) : List ListenerEvent :=
  (runEffectsAux [] renders).1

/-- All listener operations over the component's whole lifetime, the
unmount cleanup included. -/
def fullTrace (renders : List (Option String)) : List ListenerEvent :=
  (runEffectsAux [] renders).1 ++ (runEffectsAux [] renders).2

/-- Occurrences of one listener operation in a trace. -/
def countEv (e : ListenerEvent) : List ListenerEvent → Nat
  | [] => 0
  | x :: rest => (if x = e then 1 else 0) + countEv e rest

/-- Number of listeners currently installed after a trace: additions
minus removals. -/
def installedCount (tr : List ListenerEvent) : Nat :=
  countEv .add tr - countEv .remove tr

/-- The `walletInfo?.address` value of the latest effect run, given a
first render and the later ones. -/
def lastAddr (a : Option String) : List (Option String) → Option String
  | [] => a
  | b :: rest => lastAddr b rest

/-- Whether the latest effect run held a truthy address (no run: false). -/
def lastAddrTruthy : List (Option String) → Bool
  | [] => false
  | a :: rest => addrTruthy (lastAddr a rest)

/-! ### Concrete fixtures

Used by the closed witness and counterexample theorems below. -/

/-- A concrete chain context. -/
def chainEx : ChainInfo :=
  ⟨"cosmoshub-4", "Cosmos Hub", "https://rpc.cosmos.example"⟩

/-- The component's initial state: not loading, no identity, created view,
no fetched multisigs. -/
def initialState : ComponentState := ⟨false, none, false, none⟩

/-- A well-formed multisig entry (its pubkeyJSON parses). -/
def goodEntry : MultisigFromQuery :=
  ⟨"cosmos1good",
    "\x7b\"type\":\"tendermint/PubKeyMultisigThreshold\",\"value\":\x7b\"threshold\":\"1\",\"pubkeys\":[]\x7d\x7d"⟩

/-- A malformed multisig entry: its pubkeyJSON is not valid JSON. -/
def badEntry : MultisigFromQuery := ⟨"cosmos1bad", "oops"⟩

/-- A fetched result set containing the malformed entry. -/
def badFetched : FetchedMultisigs := ⟨[badEntry], []⟩

/-- A result set with differing counts (2 created, 5 belonged). -/
def unevenFetched : FetchedMultisigs :=
  ⟨[goodEntry, ⟨"cosmos1c2", "true"⟩],
    [goodEntry, ⟨"cosmos1c2", "true"⟩, ⟨"cosmos1b3", "1"⟩, ⟨"cosmos1b4", "2"⟩,
      ⟨"cosmos1b5", "3"⟩]⟩

/-- All sign-flow calls succeed. -/
def signEnvOk : SignEnv := ⟨.ok (), some "cosmos1abc", .ok "n123", .ok "sigbytes"⟩

/-- The on-chain account lookup finds nothing; everything else would
succeed. -/
def signEnvNoAccount : SignEnv := ⟨.ok (), none, .ok "n123", .ok "sigbytes"⟩

/-- The nonce request fails; everything else would succeed. -/
def signEnvNonceFail : SignEnv := ⟨.ok (), some "cosmos1abc", .error (), .ok "sigbytes"⟩

/-- Fetch flow where the backend returns the malformed entry. -/
def fetchEnvBadEntry : FetchEnv := ⟨signEnvOk, .ok badFetched⟩

/-- Fetch flow where the account lookup finds nothing. -/
def fetchEnvNoAccount : FetchEnv := ⟨signEnvNoAccount, .ok ⟨[], []⟩⟩

/-- Fetch flow where the nonce request fails. -/
def fetchEnvNonceFail : FetchEnv := ⟨signEnvNonceFail, .ok ⟨[], []⟩⟩

/-- Connect flow whose fetch step dies at the account lookup. -/
def connectEnvNoAccount : ConnectEnv :=
  ⟨.ok (), .ok ("cosmos1abc", [3, 5, 7]), fetchEnvNoAccount⟩

/-- Connect flow whose fetch step dies at the nonce request. -/
def connectEnvNonceFail : ConnectEnv :=
  ⟨.ok (), .ok ("cosmos1abc", [3, 5, 7]), fetchEnvNonceFail⟩

/-- A state holding a previously fetched result set. -/
def stWithPrior : ComponentState :=
  ⟨false, some ⟨"cosmos1abc", "AwUH"⟩, false, some ⟨[goodEntry], [goodEntry]⟩⟩

/-! ### Helper lemmas -/

/-- `fetchMultisigs` never writes the `walletInfo` cell. -/
theorem fetch_preserves_walletInfo (env : FetchEnv) (chain : ChainInfo)
    (address : String) (st : ComponentState) :
    (fetchMultisigs env chain address st).state.walletInfo = st.walletInfo := by
  unfold fetchMultisigs
  cases (getSignature env.signEnv chain address).1 with
  | error e => rfl
  | ok s =>
    cases env.listResult with
    | error e => rfl
    | ok ms => rfl

/-- One disjunct per way the fetch flow can fail: client connection,
account lookup, nonce request, signature request, or list request. -/
def fetchStepFails (env : FetchEnv) : Prop :=
  env.signEnv.connectResult = .error () ∨
  env.signEnv.accountOnChain = none ∨
  env.signEnv.nonceResult = .error () ∨
  env.signEnv.signResult = .error () ∨
  env.listResult = .error ()

/-- A render list containing an entry whose pubkeyJSON does not parse
fails to render as a whole. -/
theorem renderRows_none_of_mem {ms : List MultisigFromQuery}
    {m : MultisigFromQuery} (hmem : m ∈ ms)
    (hbad : jsonParse m.pubkeyJSON = none) : renderRows ms = none := by
  induction ms with
  | nil => cases hmem
  | cons x rest ih =>
    cases hmem with
    | head =>
      unfold renderRows renderRow
      rw [hbad]
    | tail _ htail =>
      unfold renderRows
      rw [ih htail]
      cases renderRow x <;> rfl

/-- The displayed list for a held result set is the selected sequence;
when the truthiness guard hides the block, both sequences are empty and
the equation still holds. -/
theorem displayedSet_some (b : Bool) (m : FetchedMultisigs) :
    displayedSet b (some m) = if b then m.belonged else m.created := by
  have hd : displayedSet b (some m)
      = (if m.created.length != 0 || m.belonged.length != 0 then
          (if b then m.belonged else m.created) else []) := rfl
  rw [hd]
  split
  · rfl
  · next hguard =>
    have h1 : m.created = [] := by
      by_contra hc
      exact hguard (by
        simp only [Bool.or_eq_true, bne_iff_ne, ne_eq]
        exact Or.inl (fun h0 => hc (List.length_eq_zero.mp h0)))
    have h2 : m.belonged = [] := by
      by_contra hb
      exact hguard (by
        simp only [Bool.or_eq_true, bne_iff_ne, ne_eq]
        exact Or.inr (fun h0 => hb (List.length_eq_zero.mp h0)))
    rw [h1, h2]
    cases b <;> rfl

/-- Counting distributes over trace concatenation. -/
theorem countEv_append (e : ListenerEvent) (l1 l2 : List ListenerEvent) :
    countEv e (l1 ++ l2) = countEv e l1 + countEv e l2 := by
  induction l1 with
  | nil => simp [countEv]
  | cons x rest ih =>
    show (if x = e then 1 else 0) + countEv e (rest ++ l2)
      = ((if x = e then 1 else 0) + countEv e rest) + countEv e l2
    rw [ih]
    omega

/-- Over a whole run (emitted operations plus the still-pending cleanup),
adds and removes each amount to the pending cleanup's share plus one per
truthy render: every effect run contributes one matched add/remove pair. -/
theorem runEffectsAux_count (e : ListenerEvent) (rs : List (Option String)) :
    ∀ pending : List ListenerEvent,
      countEv e ((runEffectsAux pending rs).1 ++ (runEffectsAux pending rs).2)
        = countEv e pending + rs.countP addrTruthy := by
  induction rs with
  | nil =>
    intro pending
    simp [runEffectsAux, countEv_append, countEv]
  | cons a rest ih =>
    intro pending
    have hih := ih (effectRun a).2
    rw [countEv_append] at hih
    simp only [runEffectsAux, List.countP_cons, countEv_append]
    by_cases h : addrTruthy a
    · unfold effectRun at hih ⊢
      rw [if_pos h] at hih ⊢
      simp only [h, if_true]
      cases e <;> simp [countEv] at hih ⊢ <;> omega
    · unfold effectRun at hih ⊢
      rw [if_neg h] at hih ⊢
      simp only [h, if_false]
      cases e <;> simp [countEv] at hih ⊢ <;> omega

/-- After at least one effect run, the pending cleanup is the latest
run's cleanup. -/
theorem runEffectsAux_snd (rs : List (Option String)) :
    ∀ (a : Option String) (pending : List ListenerEvent),
      (runEffectsAux pending (a :: rs)).2 = (effectRun (lastAddr a rs)).2 := by
  induction rs with
  | nil =>
    intro a pending
    rfl
  | cons b rest ih =>
    intro a pending
    show (runEffectsAux (effectRun a).2 (b :: rest)).2 = _
    rw [ih b (effectRun a).2]
    rfl

/-- While the component is mounted, the number of installed listeners is
one exactly when the latest effect run saw a truthy address. -/
theorem installed_iff_latest_truthy (renders : List (Option String)) :
    installedCount (mountedTrace renders)
      = if lastAddrTruthy renders then 1 else 0 := by
  cases renders with
  | nil => rfl
  | cons a rest =>
    have hcadd := runEffectsAux_count .add (a :: rest) []
    have hcrem := runEffectsAux_count .remove (a :: rest) []
    rw [countEv_append] at hcadd hcrem
    rw [runEffectsAux_snd rest a []] at hcadd hcrem
    unfold installedCount mountedTrace lastAddrTruthy
    by_cases h : addrTruthy (lastAddr a rest)
    · rw [if_pos h]
      unfold effectRun at hcadd hcrem
      rw [if_pos h] at hcadd hcrem
      simp [countEv] at hcadd hcrem
      omega
    · rw [if_neg h]
      unfold effectRun at hcadd hcrem
      rw [if_neg h] at hcadd hcrem
      simp [countEv] at hcadd hcrem
      omega

/-! ### Claim theorems -/

/-- Claim C9: every completed `connectWallet` invocation, whether it ends
in success or in any error (agent enable failure, key retrieval failure,
or a failure inside the fetch flow), leaves the `loading` flag false: the
`finally` block always clears it. -/
theorem connect_always_clears_loading (env : ConnectEnv) (chain : ChainInfo)
    (st : ComponentState) :
    (connectWallet env chain st).state.loading = false := by
  unfold connectWallet
  cases env.enableResult with
  | error e => rfl
  | ok u =>
    cases env.getKeyResult with
    | error e => rfl
    | ok kv =>
      obtain ⟨a, p⟩ := kv
      rfl

/-- Claim C10: when any step of the fetch flow fails (client connection,
account resolution, nonce request, signature request, or list request),
the `multisigs` cell keeps its prior value and the failure is only
reported through the error toast. -/
theorem fetch_failure_preserves_multisigs (env : FetchEnv) (chain : ChainInfo)
    (address : String) (st : ComponentState) (h : fetchStepFails env) :
    (fetchMultisigs env chain address st).state.multisigs = st.multisigs ∧
    (fetchMultisigs env chain address st).toasts = [Toast.fetchFailed] := by
  unfold fetchMultisigs getSignature
  cases hc : env.signEnv.connectResult with
  | error e => exact ⟨rfl, rfl⟩
  | ok u =>
    cases ha : env.signEnv.accountOnChain with
    | none => exact ⟨rfl, rfl⟩
    | some acct =>
      cases hn : env.signEnv.nonceResult with
      | error e => exact ⟨rfl, rfl⟩
      | ok nonce =>
        cases hs : env.signEnv.signResult with
        | error e => exact ⟨rfl, rfl⟩
        | ok sig =>
          cases hl : env.listResult with
          | error e => exact ⟨rfl, rfl⟩
          | ok ms =>
            rcases h with h | h | h | h | h <;> simp_all

/-- Witness for C10 at a concrete input: the nonce request fails and the
previously stored result set survives. -/
theorem fetch_failure_preserves_multisigs_witness :
    (fetchMultisigs fetchEnvNonceFail chainEx "cosmos1abc" stWithPrior).state.multisigs
      = stWithPrior.multisigs ∧
    (fetchMultisigs fetchEnvNonceFail chainEx "cosmos1abc" stWithPrior).toasts
      = [Toast.fetchFailed] :=
  fetch_failure_preserves_multisigs fetchEnvNonceFail chainEx "cosmos1abc" stWithPrior
    (Or.inr (Or.inr (Or.inl rfl)))

/-- Claim C3: once the identity has been captured from the agent
(`enable` and `getKey` succeeded), a failure in the signing step or the
list fetch leaves the stored wallet identity exactly as obtained: the
error handling never clears or replaces it. -/
theorem post_auth_failure_retains_identity (env : ConnectEnv) (chain : ChainInfo)
    (st : ComponentState) (address : String) (pubKeyArray : List Nat)
    (hen : env.enableResult = Except.ok ())
    (hkey : env.getKeyResult = Except.ok (address, pubKeyArray))
    (_hfail : fetchStepFails env.fetchEnv) :
    (connectWallet env chain st).state.walletInfo
      = some ⟨address, toBase64 pubKeyArray⟩ := by
  unfold connectWallet
  rw [hen, hkey]
  show (fetchMultisigs env.fetchEnv chain address
      { st with loading := true, walletInfo := some ⟨address, toBase64 pubKeyArray⟩ }).state.walletInfo
    = some ⟨address, toBase64 pubKeyArray⟩
  rw [fetch_preserves_walletInfo]

/-- Witness for C3 at a concrete input: the nonce request fails after the
key was obtained, and the identity from the agent is retained. -/
theorem post_auth_failure_retains_identity_witness :
    (connectWallet connectEnvNonceFail chainEx initialState).state.walletInfo
      = some ⟨"cosmos1abc", toBase64 [3, 5, 7]⟩ :=
  post_auth_failure_retains_identity connectEnvNonceFail chainEx initialState
    "cosmos1abc" [3, 5, 7] rfl rfl (Or.inr (Or.inr (Or.inl rfl)))

/-- Claim C5: the serialized challenge payload handed to the signing agent
is a function of the chain display name and the nonce alone: two builds
from identical inputs yield byte-identical output. -/
theorem challenge_payload_deterministic
    (displayName nonce displayName2 nonce2 : String)
    (hd : displayName = displayName2) (hn : nonce = nonce2) :
    challengePayload displayName nonce = challengePayload displayName2 nonce2 := by
  rw [hd, hn]

/-- Witness for C5 at a concrete input. -/
theorem challenge_payload_deterministic_witness :
    challengePayload "Cosmos Hub" "n123" = challengePayload "Cosmos Hub" "n123" :=
  challenge_payload_deterministic "Cosmos Hub" "n123" "Cosmos Hub" "n123" rfl rfl

/-- The sign flow asked the agent for a signature exactly when a
`signAmino` call appears among the issued calls. -/
def signRequestIssued (calls : List ExtCall) : Bool :=
  calls.any fun c =>
    match c with
    | .signAmino _ _ _ => true
    | _ => false

/-- Claim C6: when the nonce request fails (transport failure or non-2xx
response), `getSignature` ends in the network error and no `signAmino`
request is ever issued to the agent in that invocation. -/
theorem nonce_failure_skips_sign_request (env : SignEnv) (chain : ChainInfo)
    (address acct : String)
    (hconn : env.connectResult = Except.ok ())
    (hacct : env.accountOnChain = some acct)
    (hnonce : env.nonceResult = Except.error ()) :
    (getSignature env chain address).1 = Except.error FlowError.networkError ∧
    signRequestIssued (getSignature env chain address).2 = false := by
  unfold getSignature
  rw [hconn, hacct, hnonce]
  exact ⟨rfl, rfl⟩

/-- Witness for C6 at a concrete input. -/
theorem nonce_failure_skips_sign_request_witness :
    (getSignature signEnvNonceFail chainEx "cosmos1abc").1
      = Except.error FlowError.networkError ∧
    signRequestIssued (getSignature signEnvNonceFail chainEx "cosmos1abc").2 = false :=
  nonce_failure_skips_sign_request signEnvNonceFail chainEx "cosmos1abc" "cosmos1abc"
    rfl rfl rfl

/-- Claim C4: for every fetched result set, both-empty included, the
created/belonged toggle is rendered exactly when the two sequence lengths
differ (a count comparison; when the lengths differ at least one is
nonzero, so the enclosing truthiness guard never hides the switch). -/
theorem toggle_rendered_iff_counts_differ (m : FetchedMultisigs) :
    toggleRendered (some m) = true ↔ m.created.length ≠ m.belonged.length := by
  have hd : toggleRendered (some m)
      = (if m.created.length != 0 || m.belonged.length != 0 then
          (m.created.length != m.belonged.length) else false) := rfl
  rw [hd]
  split
  · rw [bne_iff_ne]
  · next hguard =>
    constructor
    · intro hfalse
      cases hfalse
    · intro hne
      exfalso
      apply hguard
      simp only [Bool.or_eq_true, bne_iff_ne, ne_eq]
      by_cases hc : m.created.length = 0
      · by_cases hb : m.belonged.length = 0
        · exact absurd (hc.trans hb.symm) hne
        · exact Or.inr hb
      · exact Or.inl hc

/-- Claim C7: for a held result set the displayed list is the selected
sequence (`belonged` when the toggle is on, `created` when off), and
flipping the toggle only rewrites the `showBelonged` cell: no external
call is issued and the stored multisigs, identity and loading flag are
untouched, so the new displayed list is the other stored sequence. -/
theorem toggle_switches_displayed_set_only (st : ComponentState)
    (m : FetchedMultisigs) (checked : Bool)
    (hms : st.multisigs = some m) :
    displayedSet st.showBelonged st.multisigs
      = (if st.showBelonged then m.belonged else m.created) ∧
    (onToggleChange checked st).state.showBelonged = checked ∧
    (onToggleChange checked st).state.multisigs = st.multisigs ∧
    (onToggleChange checked st).state.walletInfo = st.walletInfo ∧
    (onToggleChange checked st).state.loading = st.loading ∧
    (onToggleChange checked st).calls = [] ∧
    displayedSet (onToggleChange checked st).state.showBelonged
        (onToggleChange checked st).state.multisigs
      = (if checked then m.belonged else m.created) := by
  refine ⟨?_, rfl, rfl, rfl, rfl, rfl, ?_⟩
  · rw [hms]
    exact displayedSet_some _ _
  · show displayedSet checked st.multisigs = _
    rw [hms]
    exact displayedSet_some _ _

/-- A state holding the uneven result set (2 created, 5 belonged). -/
def stUneven : ComponentState :=
  ⟨false, some ⟨"cosmos1abc", "AwUH"⟩, false, some unevenFetched⟩

/-- Witness for C7 at a concrete input: 2 created and 5 belonged entries,
toggling to the belonged view. -/
theorem toggle_switches_displayed_set_only_witness :
    displayedSet stUneven.showBelonged stUneven.multisigs
      = (if stUneven.showBelonged then unevenFetched.belonged
        else unevenFetched.created) ∧
    (onToggleChange true stUneven).state.showBelonged = true ∧
    (onToggleChange true stUneven).state.multisigs = stUneven.multisigs ∧
    (onToggleChange true stUneven).state.walletInfo = stUneven.walletInfo ∧
    (onToggleChange true stUneven).state.loading = stUneven.loading ∧
    (onToggleChange true stUneven).calls = [] ∧
    displayedSet (onToggleChange true stUneven).state.showBelonged
        (onToggleChange true stUneven).state.multisigs
      = (if true then unevenFetched.belonged else unevenFetched.created) :=
  toggle_switches_displayed_set_only stUneven unevenFetched true rfl

/-- Claim C8: the `keplr_keystorechange` listener is scoped to a held
identity. Over a whole component lifetime every registration is paired
with a deregistration (adds equal removes once the unmount cleanup ran),
and while mounted exactly one listener is installed when the latest
effect run saw a truthy `walletInfo?.address`, none otherwise. -/
theorem keystore_listener_scoped (renders : List (Option String)) :
    countEv ListenerEvent.add (fullTrace renders)
      = countEv ListenerEvent.remove (fullTrace renders) ∧
    installedCount (mountedTrace renders)
      = (if lastAddrTruthy renders then 1 else 0) := by
  constructor
  · have ha := runEffectsAux_count .add renders []
    have hr := runEffectsAux_count .remove renders []
    unfold fullTrace
    rw [ha, hr]
    rfl
  · exact installed_iff_latest_truthy renders

/-- When the sign sub-flow ends in an error, `fetchMultisigs` catches it:
the state survives untouched and the fetch-failed toast is raised. -/
theorem fetch_sign_error (env : FetchEnv) (chain : ChainInfo) (address : String)
    (st : ComponentState) (e : FlowError)
    (herr : (getSignature env.signEnv chain address).1 = Except.error e) :
    fetchMultisigs env chain address st
      = ⟨st, (getSignature env.signEnv chain address).2, [Toast.fetchFailed]⟩ := by
  unfold fetchMultisigs
  rw [herr]

/-- Counterexample to claim C1 as stated: the backend returns an entry
whose `pubkeyJSON` is not valid JSON, yet the fetch succeeds as a whole —
the result set, malformed entry included, is stored into the `multisigs`
state and no error is reported. The fetch does not fail with a malformed
entry error. -/
theorem fetch_stores_unparsed_entry :
    jsonParse badEntry.pubkeyJSON = none ∧
    (fetchMultisigs fetchEnvBadEntry chainEx "cosmos1abc" initialState).state.multisigs
      = some badFetched ∧
    (fetchMultisigs fetchEnvBadEntry chainEx "cosmos1abc" initialState).toasts = [] :=
  ⟨rfl, rfl, rfl⟩

/-- A result set whose malformed entry sits only in the belonged
sequence (displayed when the toggle is on). -/
def badBelonged : FetchedMultisigs := ⟨[goodEntry], [badEntry]⟩

/-- Fetch flow where the backend returns the malformed entry inside the
belonged sequence. -/
def fetchEnvBadBelonged : FetchEnv := ⟨signEnvOk, .ok badBelonged⟩

/-- Claim C1 (amended): `fetchMultisigs` performs no per-entry JSON
parsing. When the signing steps and the list request succeed it stores
the result set exactly as received, even if an entry's `pubkeyJSON` is
not valid JSON, and reports no error; the parse failure surfaces only at
render time, where for either toggle position the displayed sequence
(created when the toggle is off, belonged when on) containing the
malformed entry fails to render as a whole (no partially parsed rows). -/
theorem fetch_stores_raw_render_fails (env : FetchEnv) (chain : ChainInfo)
    (address : String) (st : ComponentState) (ms : FetchedMultisigs)
    (m : MultisigFromQuery) (acct nonce sig : String) (showBelonged : Bool)
    (hconn : env.signEnv.connectResult = Except.ok ())
    (hacct : env.signEnv.accountOnChain = some acct)
    (hnonce : env.signEnv.nonceResult = Except.ok nonce)
    (hsign : env.signEnv.signResult = Except.ok sig)
    (hlist : env.listResult = Except.ok ms)
    (hmem : m ∈ displayedSet showBelonged (some ms))
    (hbad : jsonParse m.pubkeyJSON = none) :
    (fetchMultisigs env chain address st).state.multisigs = some ms ∧
    (fetchMultisigs env chain address st).toasts = [] ∧
    renderRows (displayedSet showBelonged (some ms)) = none := by
  have hsig2 : (getSignature env.signEnv chain address).1 = Except.ok sig := by
    unfold getSignature
    rw [hconn, hacct, hnonce, hsign]
  refine ⟨?_, ?_, renderRows_none_of_mem hmem hbad⟩ <;>
    unfold fetchMultisigs <;> rw [hsig2, hlist]

/-- Witness for the amended C1 at a concrete input: the malformed entry
sits only in the belonged sequence and the toggle is on. -/
theorem fetch_stores_raw_render_fails_witness :
    (fetchMultisigs fetchEnvBadBelonged chainEx "cosmos1abc" initialState).state.multisigs
      = some badBelonged ∧
    (fetchMultisigs fetchEnvBadBelonged chainEx "cosmos1abc" initialState).toasts = [] ∧
    renderRows (displayedSet true (some badBelonged)) = none :=
  fetch_stores_raw_render_fails fetchEnvBadBelonged chainEx "cosmos1abc" initialState
    badBelonged badEntry "cosmos1abc" "n123" "sigbytes" true rfl rfl rfl rfl rfl
    (by decide) rfl

/-- Counterexample to claim C2 as stated: the account lookup finds no
account, `getSignature` fails with the account-not-found error — but the
stored wallet identity is not null at the end of the attempt, because
`connectWallet` stores the identity retrieved from the agent before it
invokes the fetch flow. -/
theorem identity_set_despite_account_not_found :
    (getSignature signEnvNoAccount chainEx "cosmos1abc").1
      = Except.error (FlowError.accountNotFound "cosmos1abc") ∧
    (connectWallet connectEnvNoAccount chainEx initialState).state.walletInfo
      = some ⟨"cosmos1abc", toBase64 [3, 5, 7]⟩ :=
  ⟨rfl, rfl⟩

/-- Claim C2 (amended): when the on-chain account lookup finds no account,
the sign step fails with the account-not-found error and the attempt ends
in a reported failure (fetch-failed toast, loading cleared, multisigs
untouched) — but the stored wallet identity is the identity already
retrieved from the agent, not null. -/
theorem account_not_found_identity_from_agent (env : ConnectEnv)
    (chain : ChainInfo) (st : ComponentState) (address : String)
    (pubKeyArray : List Nat)
    (hen : env.enableResult = Except.ok ())
    (hkey : env.getKeyResult = Except.ok (address, pubKeyArray))
    (hconn : env.fetchEnv.signEnv.connectResult = Except.ok ())
    (hacct : env.fetchEnv.signEnv.accountOnChain = none) :
    (getSignature env.fetchEnv.signEnv chain address).1
      = Except.error (FlowError.accountNotFound address) ∧
    (connectWallet env chain st).state.walletInfo
      = some ⟨address, toBase64 pubKeyArray⟩ ∧
    (connectWallet env chain st).state.loading = false ∧
    (connectWallet env chain st).toasts = [Toast.fetchFailed] ∧
    (connectWallet env chain st).state.multisigs = st.multisigs := by
  have hsig : (getSignature env.fetchEnv.signEnv chain address).1
      = Except.error (FlowError.accountNotFound address) := by
    unfold getSignature
    rw [hconn, hacct]
  refine ⟨hsig, ?_, ?_, ?_, ?_⟩ <;>
    simp only [connectWallet, hen, hkey] <;>
    rw [fetch_sign_error env.fetchEnv chain address _ _ hsig]

/-- Witness for the amended C2 at a concrete input. -/
theorem account_not_found_identity_from_agent_witness :
    (getSignature connectEnvNoAccount.fetchEnv.signEnv chainEx "cosmos1abc").1
      = Except.error (FlowError.accountNotFound "cosmos1abc") ∧
    (connectWallet connectEnvNoAccount chainEx initialState).state.walletInfo
      = some ⟨"cosmos1abc", toBase64 [3, 5, 7]⟩ ∧
    (connectWallet connectEnvNoAccount chainEx initialState).state.loading = false ∧
    (connectWallet connectEnvNoAccount chainEx initialState).toasts
      = [Toast.fetchFailed] ∧
    (connectWallet connectEnvNoAccount chainEx initialState).state.multisigs
      = initialState.multisigs :=
  account_not_found_identity_from_agent connectEnvNoAccount chainEx initialState
    "cosmos1abc" [3, 5, 7] rfl rfl rfl rfl
